import Mathlib

/-!
Shallow embedding of `src/core/parser/duckpgq_parser.cpp`: the DuckPGQ
statement-rewriting and dispatch core.  Pure functions below mirror the C++
functions of that file; the session state (`DuckPGQState`) is passed and
returned explicitly, and C++ exceptions become an explicit error value that is
returned next to the (possibly partially updated) state, since in the source
the session state outlives a thrown exception.
-/

namespace DuckPGQ

/-- Exception categories used by the source file (`ExceptionType::PARSER`,
`BinderException` = `ExceptionType::BINDER`, `ExceptionType::NOT_IMPLEMENTED`). -/
inductive ExceptionType where
  | PARSER
  | BINDER
  | NOT_IMPLEMENTED
  deriving DecidableEq

/-- Failure outcomes of the embedded code: a thrown duckdb exception with its
type and message, a failed `Cast<T>` (duckdb raises an internal error there),
and undefined behaviour (out-of-bounds vector access / null dereference). -/
inductive PGQError where
  | ex (ty : ExceptionType) (msg : String)
  | castFailure
  | undefinedBehavior
  deriving DecidableEq

/-- duckdb `ShowType` (a `uint8_t` enum with members `SUMMARY` and `DESCRIBE`);
`OTHER code` models an out-of-range numeric value of the underlying integer. -/
inductive ShowType where
  | SUMMARY
  | DESCRIBE
  | OTHER (code : Nat)
  deriving DecidableEq

/-- Numeric value of a `ShowType`, as its `uint8_t` representation. -/
def showTypeValue : ShowType → Nat
  | .SUMMARY => 0
  | .DESCRIBE => 1
  | .OTHER code => code

/-- duckdb `Value`: only the shapes the source constructs (a varchar from
`describe_node.table_name`, an int32 from `Value::CreateValue(match_index)`). -/
inductive Value where
  | varchar (s : String)
  | int32 (n : Nat)
  deriving DecidableEq

/-- duckdb `ParsedExpression`, restricted to the shapes the source inspects:
`MatchExpression` (its alias plus an opaque payload standing for the rest of
the pattern), `ConstantExpression`, `FunctionExpression` with its name and
children, any other expression kind, and `nullExpr` for an empty (moved-from)
`unique_ptr` slot inside a children vector. -/
inductive ParsedExpression where
  | matchExpr (als : String) (pattern_data : Nat)
  | constantExpr (value : Value)
  | functionExpr (function_name : String) (children : List ParsedExpression)
  | otherExpr
  | nullExpr

/-- The four downstream table functions the dispatcher can select.  In the
source these are `TableFunction` objects with a non-null `bind`; a plan result
whose function was never assigned has `function.bind == nullptr`, modelled by
`Option.none` at the use site. -/
inductive TableFunction where
  | CreatePropertyGraphFunction
  | DropPropertyGraphFunction
  | DescribePropertyGraphFunction
  | SummarizePropertyGraphFunction
  deriving DecidableEq

/-- duckdb `StatementReturnType`. -/
inductive StatementReturnType where
  | QUERY_RESULT
  | CHANGED_ROWS
  | NOTHING
  deriving DecidableEq

/-- duckdb `ParserExtensionPlanResult` (the Plan Directive): `function = none`
models a default-constructed `TableFunction` whose `bind` is null. -/
structure ParserExtensionPlanResult where
  function : Option TableFunction := none
  parameters : List Value := []
  requires_valid_transaction : Bool := false
  return_type : StatementReturnType := .NOTHING
  deriving DecidableEq

/-- duckdb `DropInfo`, abbreviated to its name: `duckpgq_handle_statement`
never reads any field of a drop statement. -/
structure DropInfo where
  name : String
  deriving DecidableEq

/-- The two `DuckPGQState` fields this core mutates: the monotone counter
`match_index` and the map `transform_expression` from assigned index to the
detached match expression (an unordered map, modelled as a function). -/
structure DuckPGQState where
  match_index : Nat
  transform_expression : Nat → Option ParsedExpression

/-- Fresh Correlation State: counter 0, empty map. -/
def freshDuckPGQState : DuckPGQState :=
  { match_index := 0, transform_expression := fun _ => none }

/-- Lines 46-47 of `duckpgq_find_match_function` (the `allocate` contract of
the Correlation State): assign the current counter value as the index, store
the detached expression under it, and increment the counter. -/
def allocate (expr : ParsedExpression) (st : DuckPGQState) : Nat × DuckPGQState :=
  (st.match_index,
   { match_index := st.match_index + 1,
     transform_expression := fun j =>
       if j = st.match_index then some expr else st.transform_expression j })

mutual

/-- duckdb `TableRef`, restricted to the fields the source reads.  The
constructor names follow `TableReferenceType`; `tableFunction` carries the
`TableFunctionRef` alias (called `alias` in C++, reserved here) and its
`function` expression. -/
inductive TableRef where
  | tableFunction (als : String) (function : ParsedExpression)
  | subqueryRef (subquery : SelectStatement)
  | joinRef (left : TableRef) (right : TableRef)
  | baseTable (table_name : String)
  | showRef (show_type : ShowType) (table_name : String)
  | expressionList
  | cte
  | emptyFrom
  | pivot
  | columnData
  | delimGet
  | boundTableRef
  | invalid

/-- duckdb `SelectStatement`: a query node. -/
inductive SelectStatement where
  | mk (node : QueryNode)

/-- duckdb `QueryNode`: a plain `SelectNode` (its FROM target and CTE map), a
`CTENode` (its child), or any other node kind (set operation, recursive CTE,
bound subquery). -/
inductive QueryNode where
  | selectNode (from_table : TableRef) (cte_map : CTEList)
  | cteNode (child : QueryNode)
  | otherNode

/-- The CTE map of a select node, in insertion order: each entry is the CTE
name and the statement of its `CommonTableExpressionInfo`. -/
inductive CTEList where
  | nil
  | cons (name : String) (query : SQLStatement) (rest : CTEList)

/-- duckdb `SQLStatement`, restricted to the kinds the dispatcher tests, each
with the fields the source reads; `other` carries the statement kind's name
(the result of `StatementTypeToString`). -/
inductive SQLStatement where
  | select (select_statement : SelectStatement)
  | create (info : CreateInfoNode)
  | drop (info : DropInfo)
  | explainStatement (stmt : SQLStatement)
  | copyStatement (select_statement : QueryNode)
  | insertStatement (select_statement : SQLStatement)
  | other (stmt_name : String)

/-- The payload of a `CreateStatement`: a `CreatePropertyGraphInfo`, a
`CreateTableInfo` (with its `query`, for CREATE TABLE ... AS SELECT), or any
other `CreateInfo` subclass (on which `Cast<CreateTableInfo>` fails). -/
inductive CreateInfoNode where
  | createPropertyGraphInfo
  | createTableInfo (query : SQLStatement)
  | otherInfo

end

/-- `DuckPGQParseData`: the opaque holder of the single parsed statement. -/
structure DuckPGQParseData where
  statement : SQLStatement

/-- duckdb `StatementTypeToString` restricted to the modelled kinds. -/
def statementTypeToString : SQLStatement → String
  | .select _ => "SELECT"
  | .create _ => "CREATE"
  | .drop _ => "DROP"
  | .explainStatement _ => "EXPLAIN"
  | .copyStatement _ => "COPY"
  | .insertStatement _ => "INSERT"
  | .other stmt_name => stmt_name

/-- The `BinderException` thrown for table-reference kinds the Match Locator
does not support (line 79). -/
def matchUnsupportedError : PGQError :=
  .ex .BINDER "MATCH statement is not yet supported in this table reference type"

/-- The message suffix of the final `NOT_IMPLEMENTED` exception (line 180). -/
def notImplementedSuffix : String :=
  "has not been implemented yet for DuckPGQ queries"

/-- `duckpgq_parse` (lines 27-35): strip one leading '-', parse with the
standard grammar (abstracted as the `parseQuery` argument), require exactly one
statement, and wrap it.  The C++ checks `statements.size() != 1` and then
reads `statements[0]`; the `[]` branch below is unreachable under that check. -/
def duckpgq_parse (parseQuery : String → List SQLStatement) (query : String) :
    Except PGQError DuckPGQParseData :=
  let statements := parseQuery (if query.front = '-' then query.drop 1 else query)
  if statements.length ≠ 1 then
    .error (.ex .PARSER "More than one statement detected, please only give one.")
  else
    match statements with
    | s :: _ => .ok ⟨s⟩
    | [] => .error .undefinedBehavior

/-- `duckpgq_parse_showref` (lines 83-98): turn a `ShowRef` FROM target into a
summarize or describe plan directive, or fail on an unknown show type. -/
def duckpgq_parse_showref (table_ref : TableRef) : Except PGQError ParserExtensionPlanResult :=
  match table_ref with
  | .showRef show_type table_name =>
    if show_type = ShowType.SUMMARY then
      .ok { function := some .SummarizePropertyGraphFunction,
            parameters := [.varchar table_name],
            requires_valid_transaction := true,
            return_type := .QUERY_RESULT }
    else if show_type = ShowType.DESCRIBE then
      .ok { function := some .DescribePropertyGraphFunction,
            requires_valid_transaction := true,
            return_type := .QUERY_RESULT }
    else
      .error (.ex .BINDER
        ("Unknown show type " ++ toString (showTypeValue show_type) ++ " found."))
  | _ => .error .castFailure

mutual

/-- `duckpgq_find_match_function` (lines 37-81): the Match Locator.  On a
table-function call whose function is named `duckpgq_match`, it copies the
match expression's alias onto the call node, detaches `children[0]` into the
Correlation State (lines 46-47, `allocate`), pops the trailing child slot
(`children[0]` itself is left as a moved-from null slot when more than one
child exists), and appends a constant carrying the assigned index. -/
def duckpgq_find_match_function (table_ref : TableRef) (duckpgq_state : DuckPGQState) :
    DuckPGQState × Except PGQError TableRef :=
  match table_ref with
  | .tableFunction als fn =>
    match fn with
    | .functionExpr function_name children =>
      if function_name ≠ "duckpgq_match" then
        (duckpgq_state, .ok (.tableFunction als (.functionExpr function_name children)))
      else
        match children with
        | [] => (duckpgq_state, .error .undefinedBehavior)
        | c0 :: rest =>
          match c0 with
          | .matchExpr m_als pattern_data =>
            let alloc := allocate (.matchExpr m_als pattern_data) duckpgq_state
            (alloc.2, .ok (.tableFunction m_als (.functionExpr function_name
              ((ParsedExpression.nullExpr :: rest).dropLast
                ++ [.constantExpr (.int32 alloc.1)]))))
          | _ => (duckpgq_state, .error .castFailure)
    | _ => (duckpgq_state, .error .castFailure)
  | .subqueryRef subquery =>
    match duckpgq_find_select_statement subquery duckpgq_state with
    | (st', .error e) => (st', .error e)
    | (st', .ok r) => (st', .ok (.subqueryRef r.2))
  | .joinRef left right =>
    match duckpgq_find_match_function left duckpgq_state with
    | (st', .error e) => (st', .error e)
    | (st', .ok left') =>
      match duckpgq_find_match_function right st' with
      | (st'', .error e) => (st'', .error e)
      | (st'', .ok right') => (st'', .ok (.joinRef left' right'))
  | .baseTable table_name => (duckpgq_state, .ok (.baseTable table_name))
  | .showRef _ _ => (duckpgq_state, .error matchUnsupportedError)
  | .expressionList => (duckpgq_state, .error matchUnsupportedError)
  | .cte => (duckpgq_state, .error matchUnsupportedError)
  | .emptyFrom => (duckpgq_state, .error matchUnsupportedError)
  | .pivot => (duckpgq_state, .error matchUnsupportedError)
  | .columnData => (duckpgq_state, .error matchUnsupportedError)
  | .delimGet => (duckpgq_state, .error matchUnsupportedError)
  | .boundTableRef => (duckpgq_state, .error matchUnsupportedError)
  | .invalid => (duckpgq_state, .error matchUnsupportedError)

/-- The CTE loop of `duckpgq_find_select_statement` (lines 106-114 and
122-130): for each CTE entry whose query is a select statement, cast its node
to a `SelectNode` and run the Match Locator on that node's FROM target. -/
def duckpgq_rewrite_ctes (ctes : CTEList) (duckpgq_state : DuckPGQState) :
    DuckPGQState × Except PGQError CTEList :=
  match ctes with
  | .nil => (duckpgq_state, .ok .nil)
  | .cons name query rest =>
    match query with
    | .select cte_select_statement =>
      match cte_select_statement with
      | .mk node =>
        match node with
        | .selectNode from_table inner_ctes =>
          match duckpgq_find_match_function from_table duckpgq_state with
          | (st', .error e) => (st', .error e)
          | (st', .ok from') =>
            match duckpgq_rewrite_ctes rest st' with
            | (st'', .error e) => (st'', .error e)
            | (st'', .ok rest') =>
              (st'', .ok (.cons name (.select (.mk (.selectNode from' inner_ctes))) rest'))
        | _ => (duckpgq_state, .error .castFailure)
    | _ =>
      match duckpgq_rewrite_ctes rest duckpgq_state with
      | (st', .error e) => (st', .error e)
      | (st', .ok rest') => (st', .ok (.cons name query rest'))

/-- `duckpgq_find_select_statement` (lines 100-134): the Statement Locator.
On a plain select node it redirects a `ShowRef` FROM target to the
show/describe handler, otherwise rewrites each CTE's FROM target and then the
outer FROM target; on a CTE node it does the same on the node's child select
node; anything else returns a default (empty) plan result. -/
def duckpgq_find_select_statement (statement : SelectStatement) (duckpgq_state : DuckPGQState) :
    DuckPGQState × Except PGQError (ParserExtensionPlanResult × SelectStatement) :=
  match statement with
  | .mk qnode =>
    match qnode with
    | .selectNode from_table cte_map =>
      match from_table with
      | .showRef s t =>
        match duckpgq_parse_showref (.showRef s t) with
        | .error e => (duckpgq_state, .error e)
        | .ok result =>
          (duckpgq_state, .ok (result, .mk (.selectNode (.showRef s t) cte_map)))
      | _ =>
        match duckpgq_rewrite_ctes cte_map duckpgq_state with
        | (st', .error e) => (st', .error e)
        | (st', .ok cte_map') =>
          match duckpgq_find_match_function from_table st' with
          | (st'', .error e) => (st'', .error e)
          | (st'', .ok from') =>
            (st'', .ok ({}, .mk (.selectNode from' cte_map')))
    | .cteNode child =>
      match child with
      | .selectNode from_table cte_map =>
        match duckpgq_rewrite_ctes cte_map duckpgq_state with
        | (st', .error e) => (st', .error e)
        | (st', .ok cte_map') =>
          match duckpgq_find_match_function from_table st' with
          | (st'', .error e) => (st'', .error e)
          | (st'', .ok from') =>
            (st'', .ok ({}, .mk (.cteNode (.selectNode from' cte_map'))))
      | .cteNode c => (duckpgq_state, .ok ({}, .mk (.cteNode (.cteNode c))))
      | .otherNode => (duckpgq_state, .ok ({}, .mk (.cteNode .otherNode)))
    | .otherNode => (duckpgq_state, .ok ({}, .mk .otherNode))

end

/-- `duckpgq_handle_statement` (lines 136-181): the Statement Dispatcher.
Non-returning branches of the C++ if-chain (CREATE TABLE AS, EXPLAIN, INSERT)
fall through to the final `NOT_IMPLEMENTED` throw naming the outer statement's
kind; a recursion that throws propagates its exception instead. -/
def duckpgq_handle_statement (statement : SQLStatement) (duckpgq_state : DuckPGQState) :
    DuckPGQState × Except PGQError ParserExtensionPlanResult :=
  match statement with
  | .select select_statement =>
    match duckpgq_find_select_statement select_statement duckpgq_state with
    | (st', .error e) => (st', .error e)
    | (st', .ok r) =>
      if r.1.function.isNone then (st', .error (.ex .BINDER "use duckpgq_bind instead"))
      else (st', .ok r.1)
  | .create info =>
    match info with
    | .createPropertyGraphInfo =>
      (duckpgq_state, .ok { function := some .CreatePropertyGraphFunction,
                            requires_valid_transaction := true,
                            return_type := .QUERY_RESULT })
    | .createTableInfo query =>
      match duckpgq_handle_statement query duckpgq_state with
      | (st', .error e) => (st', .error e)
      | (st', .ok _) =>
        (st', .error (.ex .NOT_IMPLEMENTED ("CREATE" ++ notImplementedSuffix)))
    | .otherInfo => (duckpgq_state, .error .castFailure)
  | .drop _ =>
    (duckpgq_state, .ok { function := some .DropPropertyGraphFunction,
                          requires_valid_transaction := true,
                          return_type := .QUERY_RESULT })
  | .explainStatement stmt =>
    match duckpgq_handle_statement stmt duckpgq_state with
    | (st', .error e) => (st', .error e)
    | (st', .ok _) =>
      (st', .error (.ex .NOT_IMPLEMENTED ("EXPLAIN" ++ notImplementedSuffix)))
  | .copyStatement select_statement =>
    match select_statement with
    | .selectNode from_table _ =>
      match duckpgq_find_match_function from_table duckpgq_state with
      | (st', .error e) => (st', .error e)
      | (st', .ok _) => (st', .error (.ex .BINDER "use duckpgq_bind instead"))
    | _ => (duckpgq_state, .error .undefinedBehavior)
  | .insertStatement select_statement =>
    match duckpgq_handle_statement select_statement duckpgq_state with
    | (st', .error e) => (st', .error e)
    | (st', .ok _) =>
      (st', .error (.ex .NOT_IMPLEMENTED ("INSERT" ++ notImplementedSuffix)))
  | .other stmt_name =>
    (duckpgq_state, .error (.ex .NOT_IMPLEMENTED (stmt_name ++ notImplementedSuffix)))

/-- Iterated allocation: one session performing a sequence of successful
allocations, returning the assigned indices in order and the final state. -/
def allocateAll (exprs : List ParsedExpression) (st : DuckPGQState) :
    List Nat × DuckPGQState :=
  match exprs with
  | [] => ([], st)
  | e :: rest =>
    let alloc := allocate e st
    let tail := allocateAll rest alloc.2
    (alloc.1 :: tail.1, tail.2)

/-! ### Helper lemmas about the Correlation State -/

theorem allocate_lookup_self (e : ParsedExpression) (st : DuckPGQState) :
    (allocate e st).2.transform_expression st.match_index = some e := by
  simp [allocate]

theorem allocate_lookup_other (e : ParsedExpression) (st : DuckPGQState) (i : Nat)
    (h : i ≠ st.match_index) :
    (allocate e st).2.transform_expression i = st.transform_expression i := by
  simp [allocate, h]

theorem allocateAll_indices (exprs : List ParsedExpression) (st : DuckPGQState) :
    (allocateAll exprs st).1 = List.range' st.match_index exprs.length := by
  induction exprs generalizing st with
  | nil => rfl
  | cons e rest ih => simp [allocateAll, allocate, ih, List.range'_succ]

theorem allocateAll_preserved (exprs : List ParsedExpression) (st : DuckPGQState) (i : Nat)
    (h : i < st.match_index) :
    (allocateAll exprs st).2.transform_expression i = st.transform_expression i := by
  induction exprs generalizing st with
  | nil => rfl
  | cons e rest ih =>
    have h' : i < (allocate e st).2.match_index := by simp [allocate]; omega
    show (allocateAll rest (allocate e st).2).2.transform_expression i = _
    rw [ih _ h']
    exact allocate_lookup_other e st i (Nat.ne_of_lt h)

theorem allocateAll_lookup (exprs : List ParsedExpression) (st : DuckPGQState) (j : Nat)
    (h : j < exprs.length) :
    (allocateAll exprs st).2.transform_expression (st.match_index + j) = exprs[j]? := by
  induction exprs generalizing st j with
  | nil => exact absurd h (Nat.not_lt_zero j)
  | cons e rest ih =>
    cases j with
    | zero =>
      show (allocateAll rest (allocate e st).2).2.transform_expression (st.match_index + 0) = _
      rw [allocateAll_preserved _ _ _ (by simp [allocate])]
      simpa using allocate_lookup_self e st
    | succ j =>
      show (allocateAll rest (allocate e st).2).2.transform_expression
        (st.match_index + (j + 1)) = _
      have hidx : st.match_index + (j + 1) = (allocate e st).2.match_index + j := by
        simp [allocate]; omega
      rw [hidx, ih _ _ (by simpa using h)]
      simp

/-! ### The claims -/

/-- C1: running the Match Locator on a table-function call whose function is a
`duckpgq_match` invocation with a sole graph-match child of alias `A` yields a
call node with alias `A`, the match expression removed from the children and
replaced by a single trailing literal-integer child carrying the index the
Correlation State assigned (the counter value before the call), and the
detached match expression stored in `transform_expression` at that index. -/
theorem C1_match_call_rewrite (als A : String) (pattern_data : Nat) (st : DuckPGQState) :
    duckpgq_find_match_function
        (.tableFunction als (.functionExpr "duckpgq_match" [.matchExpr A pattern_data])) st
      = ((allocate (.matchExpr A pattern_data) st).2,
         .ok (.tableFunction A (.functionExpr "duckpgq_match"
              [.constantExpr (.int32 st.match_index)])))
    ∧ (allocate (.matchExpr A pattern_data) st).2.match_index = st.match_index + 1
    ∧ (allocate (.matchExpr A pattern_data) st).2.transform_expression st.match_index
        = some (.matchExpr A pattern_data) :=
  ⟨rfl, rfl, allocate_lookup_self _ st⟩

/-- C2: starting from a fresh Correlation State, N sequential successful
allocations return the indices `0, 1, ..., N-1` in order, no index repeats,
and afterwards the i-th detached expression sits in the map at index i. -/
theorem C2_sequential_allocations (exprs : List ParsedExpression) :
    (allocateAll exprs freshDuckPGQState).1 = List.range exprs.length
    ∧ (allocateAll exprs freshDuckPGQState).1.Nodup
    ∧ ∀ j, j < exprs.length →
        (allocateAll exprs freshDuckPGQState).2.transform_expression j = exprs[j]? := by
  have h1 := allocateAll_indices exprs freshDuckPGQState
  refine ⟨?_, ?_, ?_⟩
  · rw [h1, List.range_eq_range']; rfl
  · rw [h1]
    simpa [freshDuckPGQState] using (List.range_eq_range' exprs.length ▸
      List.nodup_range (n := exprs.length))
  · intro j hj
    simpa [freshDuckPGQState] using allocateAll_lookup exprs freshDuckPGQState j hj

/-- Witness for C2 at a concrete two-element session, discharging the bound
`j < N` at `j = 1`. -/
theorem C2_witness :
    (allocateAll [ParsedExpression.matchExpr "a" 0, ParsedExpression.matchExpr "b" 1]
        freshDuckPGQState).1 = [0, 1]
    ∧ (allocateAll [ParsedExpression.matchExpr "a" 0, ParsedExpression.matchExpr "b" 1]
        freshDuckPGQState).2.transform_expression 1
        = some (.matchExpr "b" 1) := by
  have h := C2_sequential_allocations
    [ParsedExpression.matchExpr "a" 0, ParsedExpression.matchExpr "b" 1]
  exact ⟨h.1.trans (by decide), (h.2.2 1 (by decide)).trans rfl⟩

/-- C3: on a plain select node carrying one CTE whose body's FROM target is a
graph-match call and an outer FROM target that is also a graph-match call, the
Statement Locator performs exactly two rewrites — the CTE first (index equal
to the incoming counter), the outer FROM target second (index one higher), so
that the CTE's index is strictly smaller — advancing the counter by exactly
two and storing both detached expressions at their indices. -/
theorem C3_cte_then_outer (cte_name al1 al2 A1 A2 : String) (b1 b2 : Nat) (st : DuckPGQState) :
    duckpgq_find_select_statement
        (.mk (.selectNode
          (.tableFunction al2 (.functionExpr "duckpgq_match" [.matchExpr A2 b2]))
          (.cons cte_name
            (.select (.mk (.selectNode
              (.tableFunction al1 (.functionExpr "duckpgq_match" [.matchExpr A1 b1]))
              .nil)))
            .nil))) st
      = ((allocate (.matchExpr A2 b2) (allocate (.matchExpr A1 b1) st).2).2,
         .ok ({},
           .mk (.selectNode
             (.tableFunction A2 (.functionExpr "duckpgq_match"
               [.constantExpr (.int32 (st.match_index + 1))]))
             (.cons cte_name
               (.select (.mk (.selectNode
                 (.tableFunction A1 (.functionExpr "duckpgq_match"
                   [.constantExpr (.int32 st.match_index)]))
                 .nil)))
               .nil))))
    ∧ (allocate (.matchExpr A2 b2) (allocate (.matchExpr A1 b1) st).2).2.match_index
        = st.match_index + 2
    ∧ (allocate (.matchExpr A2 b2) (allocate (.matchExpr A1 b1) st).2).2.transform_expression
        st.match_index = some (.matchExpr A1 b1)
    ∧ (allocate (.matchExpr A2 b2) (allocate (.matchExpr A1 b1) st).2).2.transform_expression
        (st.match_index + 1) = some (.matchExpr A2 b2)
    ∧ st.match_index < st.match_index + 1 := by
  refine ⟨rfl, rfl, ?_, ?_, Nat.lt_succ_self _⟩
  · have hne : st.match_index ≠ (allocate (.matchExpr A1 b1) st).2.match_index := by
      simp [allocate]
    exact (allocate_lookup_other _ _ _ hne).trans (allocate_lookup_self _ st)
  · exact allocate_lookup_self (.matchExpr A2 b2) (allocate (.matchExpr A1 b1) st).2

/-- C4: the Match Locator fails with the unsupported-construct binder error on
expression-list, CTE, empty-from, pivot, show-ref, column-data, delim-get,
bound and invalid table references, and is a no-op (tree and Correlation State
unchanged) on a base table and on a table-function call whose function
expression is not a `duckpgq_match` invocation. -/
theorem C4_unsupported_and_noop (st : DuckPGQState) (sh : ShowType)
    (table_name als function_name : String) (children : List ParsedExpression)
    (h : function_name ≠ "duckpgq_match") :
    duckpgq_find_match_function .expressionList st = (st, .error matchUnsupportedError)
    ∧ duckpgq_find_match_function .cte st = (st, .error matchUnsupportedError)
    ∧ duckpgq_find_match_function .emptyFrom st = (st, .error matchUnsupportedError)
    ∧ duckpgq_find_match_function .pivot st = (st, .error matchUnsupportedError)
    ∧ duckpgq_find_match_function (.showRef sh table_name) st
        = (st, .error matchUnsupportedError)
    ∧ duckpgq_find_match_function .columnData st = (st, .error matchUnsupportedError)
    ∧ duckpgq_find_match_function .delimGet st = (st, .error matchUnsupportedError)
    ∧ duckpgq_find_match_function .boundTableRef st = (st, .error matchUnsupportedError)
    ∧ duckpgq_find_match_function .invalid st = (st, .error matchUnsupportedError)
    ∧ duckpgq_find_match_function (.baseTable table_name) st
        = (st, .ok (.baseTable table_name))
    ∧ duckpgq_find_match_function (.tableFunction als (.functionExpr function_name children)) st
        = (st, .ok (.tableFunction als (.functionExpr function_name children))) := by
  refine ⟨rfl, rfl, rfl, rfl, rfl, rfl, rfl, rfl, rfl, rfl, ?_⟩
  simp [duckpgq_find_match_function, h]

/-- Witness for C4 at concrete inputs, discharging the hypothesis that the
function name differs from `duckpgq_match`. -/
theorem C4_witness :
    duckpgq_find_match_function .expressionList freshDuckPGQState
      = (freshDuckPGQState, .error matchUnsupportedError)
    ∧ duckpgq_find_match_function .cte freshDuckPGQState
      = (freshDuckPGQState, .error matchUnsupportedError)
    ∧ duckpgq_find_match_function .emptyFrom freshDuckPGQState
      = (freshDuckPGQState, .error matchUnsupportedError)
    ∧ duckpgq_find_match_function .pivot freshDuckPGQState
      = (freshDuckPGQState, .error matchUnsupportedError)
    ∧ duckpgq_find_match_function (.showRef .SUMMARY "t") freshDuckPGQState
      = (freshDuckPGQState, .error matchUnsupportedError)
    ∧ duckpgq_find_match_function .columnData freshDuckPGQState
      = (freshDuckPGQState, .error matchUnsupportedError)
    ∧ duckpgq_find_match_function .delimGet freshDuckPGQState
      = (freshDuckPGQState, .error matchUnsupportedError)
    ∧ duckpgq_find_match_function .boundTableRef freshDuckPGQState
      = (freshDuckPGQState, .error matchUnsupportedError)
    ∧ duckpgq_find_match_function .invalid freshDuckPGQState
      = (freshDuckPGQState, .error matchUnsupportedError)
    ∧ duckpgq_find_match_function (.baseTable "t") freshDuckPGQState
      = (freshDuckPGQState, .ok (.baseTable "t"))
    ∧ duckpgq_find_match_function (.tableFunction "a" (.functionExpr "read_csv" []))
        freshDuckPGQState
      = (freshDuckPGQState, .ok (.tableFunction "a" (.functionExpr "read_csv" []))) :=
  C4_unsupported_and_noop freshDuckPGQState .SUMMARY "t" "a" "read_csv" [] (by decide)

/-- C5: the Statement Dispatcher runs the Statement Locator on a select
statement; if the produced directive carries no bound operation it fails with
the `use duckpgq_bind instead` binder error, otherwise it returns that
directive. -/
theorem C5_select_dispatch (select_statement : SelectStatement) (st : DuckPGQState)
    (result : ParserExtensionPlanResult) (stmt' : SelectStatement)
    (h : (duckpgq_find_select_statement select_statement st).2 = .ok (result, stmt')) :
    duckpgq_handle_statement (.select select_statement) st
      = ((duckpgq_find_select_statement select_statement st).1,
         if result.function.isNone
         then .error (.ex .BINDER "use duckpgq_bind instead")
         else .ok result) := by
  rcases hp : duckpgq_find_select_statement select_statement st with ⟨st1, r⟩
  rw [hp] at h
  replace h : r = .ok (result, stmt') := h
  subst h
  simp only [duckpgq_handle_statement, hp]
  cases hf : result.function <;> simp [hf]

/-- Witness for C5: a select whose FROM target is a describe meta-reference,
whose directive carries a bound operation and is returned unchanged. -/
theorem C5_witness :
    duckpgq_handle_statement
        (.select (.mk (.selectNode (.showRef .DESCRIBE "t") .nil))) freshDuckPGQState
      = (freshDuckPGQState,
         .ok { function := some .DescribePropertyGraphFunction,
               requires_valid_transaction := true,
               return_type := .QUERY_RESULT }) := by
  have h := C5_select_dispatch (.mk (.selectNode (.showRef .DESCRIBE "t") .nil))
      freshDuckPGQState
      { function := some .DescribePropertyGraphFunction,
        requires_valid_transaction := true,
        return_type := .QUERY_RESULT }
      (.mk (.selectNode (.showRef .DESCRIBE "t") .nil)) rfl
  simpa [duckpgq_find_select_statement, duckpgq_parse_showref] using h

/-- C6: the Show/Describe Handler returns the summarize directive (single
parameter: the target table name) for mode `SUMMARY`, the describe directive
(no parameters) for mode `DESCRIBE`, and fails with a binder error naming the
offending mode otherwise; every returned directive requires a valid
transaction and returns a query result. -/
theorem C6_showref_handler (table_name : String) (code : Nat) :
    duckpgq_parse_showref (.showRef .SUMMARY table_name)
      = .ok { function := some .SummarizePropertyGraphFunction,
              parameters := [.varchar table_name],
              requires_valid_transaction := true,
              return_type := .QUERY_RESULT }
    ∧ duckpgq_parse_showref (.showRef .DESCRIBE table_name)
      = .ok { function := some .DescribePropertyGraphFunction,
              requires_valid_transaction := true,
              return_type := .QUERY_RESULT }
    ∧ duckpgq_parse_showref (.showRef (.OTHER code) table_name)
      = .error (.ex .BINDER ("Unknown show type " ++ toString code ++ " found.")) :=
  ⟨rfl, rfl, rfl⟩

/-- C7: a DROP statement of any shape yields the drop-property-graph directive
with a required transaction and a query result. -/
theorem C7_drop_dispatch (info : DropInfo) (st : DuckPGQState) :
    duckpgq_handle_statement (.drop info) st
      = (st, .ok { function := some .DropPropertyGraphFunction,
                   requires_valid_transaction := true,
                   return_type := .QUERY_RESULT }) := rfl

/-- C8 counterexample: when the grammar parser yields zero statements the
parse hook still fails with the `More than one statement` parser error, even
though zero is not more than one — refuting the claimed "if and only if
parsing yields more than one statement". -/
theorem C8_counterexample :
    duckpgq_parse (fun _ => ([] : List SQLStatement)) "a"
      = .error (.ex .PARSER "More than one statement detected, please only give one.")
    ∧ ¬ 1 < ([] : List SQLStatement).length :=
  ⟨rfl, by decide⟩

/-- C8 amended: the parse hook fails with the `More than one statement` parser
error exactly when the marker-stripped text parses to a statement count other
than one, and wraps the statement as parse data when the count is exactly
one. -/
theorem C8_amended_parse (parseQuery : String → List SQLStatement) (query : String) :
    duckpgq_parse parseQuery query
      = match parseQuery (if query.front = '-' then query.drop 1 else query) with
        | [s] => .ok ⟨s⟩
        | _ => .error
            (.ex .PARSER "More than one statement detected, please only give one.") := by
  cases hq : parseQuery (if query.front = '-' then query.drop 1 else query) with
  | nil => simp [duckpgq_parse, hq]
  | cons s t =>
    cases t with
    | nil => simp [duckpgq_parse, hq]
    | cons s' t' => simp [duckpgq_parse, hq]

/-- C9: on a COPY statement whose source is a select node, the Statement
Dispatcher runs the Match Locator on the source's FROM target (keeping its
state mutation) and then fails — with the `use duckpgq_bind instead` binder
error when the locator returns, or with the locator's own error — never
returning a directive. -/
theorem C9_copy_dispatch (from_table : TableRef) (cte_map : CTEList) (st : DuckPGQState) :
    duckpgq_handle_statement (.copyStatement (.selectNode from_table cte_map)) st
      = ((duckpgq_find_match_function from_table st).1,
         .error (match (duckpgq_find_match_function from_table st).2 with
                 | .ok _ => .ex .BINDER "use duckpgq_bind instead"
                 | .error e => e)) := by
  rcases hp : duckpgq_find_match_function from_table st with ⟨st1, r⟩
  simp only [duckpgq_handle_statement, hp]
  cases r <;> rfl

/-- C10: on an EXPLAIN statement, an INSERT statement, and a CREATE statement
whose payload is a create-table-as-select, the Statement Dispatcher recurses
into the embedded statement, discards any directive the recursion produces,
and then either propagates the inner statement's error or fails with the
not-implemented error naming the outer statement's kind — it never returns a
directive. -/
theorem C10_wrapper_statements (stmt inner query : SQLStatement) (st : DuckPGQState) :
    duckpgq_handle_statement (.explainStatement stmt) st
      = ((duckpgq_handle_statement stmt st).1,
         .error (match (duckpgq_handle_statement stmt st).2 with
                 | .error e => e
                 | .ok _ => .ex .NOT_IMPLEMENTED ("EXPLAIN" ++ notImplementedSuffix)))
    ∧ duckpgq_handle_statement (.insertStatement inner) st
      = ((duckpgq_handle_statement inner st).1,
         .error (match (duckpgq_handle_statement inner st).2 with
                 | .error e => e
                 | .ok _ => .ex .NOT_IMPLEMENTED ("INSERT" ++ notImplementedSuffix)))
    ∧ duckpgq_handle_statement (.create (.createTableInfo query)) st
      = ((duckpgq_handle_statement query st).1,
         .error (match (duckpgq_handle_statement query st).2 with
                 | .error e => e
                 | .ok _ => .ex .NOT_IMPLEMENTED ("CREATE" ++ notImplementedSuffix))) := by
  refine ⟨?_, ?_, ?_⟩
  · rcases hp : duckpgq_handle_statement stmt st with ⟨st1, r⟩
    simp only [duckpgq_handle_statement, hp]
    cases r <;> rfl
  · rcases hp : duckpgq_handle_statement inner st with ⟨st1, r⟩
    simp only [duckpgq_handle_statement, hp]
    cases r <;> rfl
  · rcases hp : duckpgq_handle_statement query st with ⟨st1, r⟩
    simp only [duckpgq_handle_statement, hp]
    cases r <;> rfl

end DuckPGQ
